import Mathlib

/-!
Verification of the behavioral anomaly pipeline of the `sentinelai`
repository against its natural-language specification.

The Python sources under `backend/ml/` and `backend/routes/events.py` are
shallowly embedded below: pure computations become Lean functions over `ℚ`
(Python's float arithmetic is idealized as exact rational arithmetic),
Python's stable `list.sort` / `sorted` becomes a stable insertion sort
(`sortB`), dictionaries with a fixed key set become structures or
association lists, and the fallible external pieces (the pickled sklearn
model, the shap library, the database) are passed in as explicit
parameters.  Presentation-only fields of the Python dictionaries
(`feature_display`, f-string formatted `description` texts) are not
modelled; no claim below depends on them.
-/

/-! ## A stable sort, mirroring Python's `list.sort` / `sorted`

Python's sort is stable.  `sortB le` is insertion sort via `foldr`-style
recursion, which is stable for a comparison `le a b = true` meaning
"`a` may stay before `b`" (so ties compare `true` and keep their order).
-/

def insertB {α : Type} (le : α → α → Bool) (a : α) : List α → List α
  | [] => [a]
  | b :: l => if le a b then a :: b :: l else b :: insertB le a l

def sortB {α : Type} (le : α → α → Bool) : List α → List α
  | [] => []
  | a :: l => insertB le a (sortB le l)

theorem mem_insertB {α : Type} {le : α → α → Bool} {a x : α} {l : List α} :
    x ∈ insertB le a l ↔ x = a ∨ x ∈ l := by
  induction l with
  | nil => simp [insertB]
  | cons b t ih =>
    by_cases h : le a b = true
    · simp [insertB, h]
    · simp only [insertB, h, Bool.false_eq_true, if_false, List.mem_cons, ih]
      tauto

theorem mem_sortB {α : Type} {le : α → α → Bool} {x : α} {l : List α} :
    x ∈ sortB le l ↔ x ∈ l := by
  induction l with
  | nil => simp [sortB]
  | cons a t ih => simp [sortB, mem_insertB, ih]

theorem length_insertB {α : Type} (le : α → α → Bool) (a : α) (l : List α) :
    (insertB le a l).length = l.length + 1 := by
  induction l with
  | nil => rfl
  | cons b t ih =>
    by_cases h : le a b = true
    · simp [insertB, h]
    · simp [insertB, h, ih]

theorem length_sortB {α : Type} (le : α → α → Bool) (l : List α) :
    (sortB le l).length = l.length := by
  induction l with
  | nil => rfl
  | cons a t ih => simp [sortB, length_insertB, ih]

theorem pairwise_insertB {α : Type} {le : α → α → Bool}
    (htrans : ∀ a b c, le a b = true → le b c = true → le a c = true)
    (htot : ∀ a b, le a b = true ∨ le b a = true) {a : α} {l : List α}
    (hl : l.Pairwise (fun x y => le x y = true)) :
    (insertB le a l).Pairwise (fun x y => le x y = true) := by
  induction l with
  | nil => simp [insertB]
  | cons b t ih =>
    rcases List.pairwise_cons.mp hl with ⟨hb, ht⟩
    by_cases h : le a b = true
    · rw [insertB, if_pos h]
      refine List.pairwise_cons.mpr ⟨?_, hl⟩
      intro x hx
      rcases List.mem_cons.mp hx with rfl | hx
      · exact h
      · exact htrans a b x h (hb x hx)
    · have hba : le b a = true := (htot a b).resolve_left h
      rw [insertB, if_neg h]
      refine List.pairwise_cons.mpr ⟨?_, ih ht⟩
      intro x hx
      rcases mem_insertB.mp hx with rfl | hx
      · exact hba
      · exact hb x hx

theorem pairwise_sortB {α : Type} {le : α → α → Bool}
    (htrans : ∀ a b c, le a b = true → le b c = true → le a c = true)
    (htot : ∀ a b, le a b = true ∨ le b a = true) (l : List α) :
    (sortB le l).Pairwise (fun x y => le x y = true) := by
  induction l with
  | nil => simp [sortB]
  | cons a t ih => exact pairwise_insertB htrans htot ih

theorem insertB_eq_cons {α : Type} {le : α → α → Bool} {a : α} {l : List α}
    (h : ∀ x ∈ l, le a x = true) : insertB le a l = a :: l := by
  cases l with
  | nil => rfl
  | cons b t => simp [insertB, h b (List.mem_cons_self b t)]

theorem sortB_cons_of_min {α : Type} {le : α → α → Bool} {a : α} {l : List α}
    (h : ∀ x ∈ l, le a x = true) : sortB le (a :: l) = a :: sortB le l := by
  have : ∀ x ∈ sortB le l, le a x = true := fun x hx => h x (mem_sortB.mp hx)
  simp [sortB, insertB_eq_cons this]

/-- Stability of `insertB`: filtering for any predicate that fails on the
inserted element is unchanged, and filtering for a class the inserted
element belongs to puts it first, provided the comparison lets it pass
every member of its own class. -/
theorem filter_insertB_neg {α : Type} {le : α → α → Bool} {p : α → Bool}
    {a : α} (ha : p a = false) (l : List α) :
    (insertB le a l).filter p = l.filter p := by
  induction l with
  | nil => simp [insertB, ha]
  | cons b t ih =>
    by_cases h : le a b = true
    · simp [insertB, h, ha]
    · by_cases hp : p b = true
      · simp [insertB, h, hp, ih]
      · simp only [Bool.not_eq_true] at hp
        simp [insertB, h, hp, ih]

theorem filter_insertB_pos {α : Type} {le : α → α → Bool} {p : α → Bool}
    {a : α} (ha : p a = true)
    (hclass : ∀ x, p x = true → le a x = true) (l : List α) :
    (insertB le a l).filter p = a :: l.filter p := by
  induction l with
  | nil => simp [insertB, ha]
  | cons b t ih =>
    by_cases h : le a b = true
    · simp [insertB, h, ha]
    · have hpb : p b = false := by
        by_contra hpb
        simp only [Bool.not_eq_false] at hpb
        exact h (hclass b hpb)
      simp [insertB, h, hpb, ih]

theorem filter_sortB {α : Type} {le : α → α → Bool} {p : α → Bool}
    (hclass : ∀ x y, p x = true → p y = true → le x y = true) (l : List α) :
    (sortB le l).filter p = l.filter p := by
  induction l with
  | nil => rfl
  | cons a t ih =>
    by_cases ha : p a = true
    · rw [sortB, filter_insertB_pos ha (fun x hx => hclass a x ha hx), ih]
      simp [ha]
    · simp only [Bool.not_eq_true] at ha
      rw [sortB, filter_insertB_neg ha, ih]
      simp [ha]

/-! ## Python string containment

`pyIn needle hay` mirrors Python's `needle in hay` substring test, used by
`MitreMapper._calculate_confidence` and (case-insensitively, via
`str.contains`) by the sensitive-file keyword match in
`feature_engineering.py`. -/

def startsWithL : List Char → List Char → Bool
  | [], _ => true
  | _ :: _, [] => false
  | a :: as, b :: bs => a == b && startsWithL as bs

def containsSub (needle : List Char) : List Char → Bool
  | [] => needle.isEmpty
  | b :: bs => startsWithL needle (b :: bs) || containsSub needle bs

def pyIn (needle hay : String) : Bool := containsSub needle.data hay.data

/-! ## Feature model (`backend/ml/feature_engineering.py`)

A fingerprint is a Python dict with exactly the fourteen keys of
`get_feature_names`, in insertion order; it is embedded as a structure.
The two `*_activity_ratio` features keep their source meaning but are
named `*_activity_share` here. -/

def featureNames : List String :=
  ["avg_login_hour", "login_hour_std", "unique_locations_count",
   "avg_location_distance", "unique_ports_count", "avg_port_number",
   "file_access_rate", "sensitive_file_access_rate",
   "privilege_escalation_rate", "firewall_change_rate",
   "network_activity_volume", "failed_login_rate",
   "weekday_activity_ratio", "night_activity_ratio"]

structure Fingerprint where
  avg_login_hour : ℚ
  login_hour_std : ℚ
  unique_locations_count : ℚ
  avg_location_distance : ℚ
  unique_ports_count : ℚ
  avg_port_number : ℚ
  file_access_rate : ℚ
  sensitive_file_access_rate : ℚ
  privilege_escalation_rate : ℚ
  firewall_change_rate : ℚ
  network_activity_volume : ℚ
  failed_login_rate : ℚ
  weekday_activity_share : ℚ
  night_activity_share : ℚ
  deriving DecidableEq, Repr

/-- The fingerprint dict as an ordered association list, in the key order
of `get_feature_names` (which is also the dict insertion order); this is
what `features_to_array` flattens. -/
def fingerprintToList (f : Fingerprint) : List (String × ℚ) :=
  [("avg_login_hour", f.avg_login_hour),
   ("login_hour_std", f.login_hour_std),
   ("unique_locations_count", f.unique_locations_count),
   ("avg_location_distance", f.avg_location_distance),
   ("unique_ports_count", f.unique_ports_count),
   ("avg_port_number", f.avg_port_number),
   ("file_access_rate", f.file_access_rate),
   ("sensitive_file_access_rate", f.sensitive_file_access_rate),
   ("privilege_escalation_rate", f.privilege_escalation_rate),
   ("firewall_change_rate", f.firewall_change_rate),
   ("network_activity_volume", f.network_activity_volume),
   ("failed_login_rate", f.failed_login_rate),
   ("weekday_activity_ratio", f.weekday_activity_share),
   ("night_activity_ratio", f.night_activity_share)]

/-- `get_default_fingerprint`: the constant returned for employees with no
events in the window. -/
def defaultFingerprint : Fingerprint where
  avg_login_hour := 9
  login_hour_std := 2
  unique_locations_count := 1
  avg_location_distance := 0
  unique_ports_count := 3
  avg_port_number := 443
  file_access_rate := 5
  sensitive_file_access_rate := 1/10
  privilege_escalation_rate := 1/2
  firewall_change_rate := 0
  network_activity_volume := 10
  failed_login_rate := 0
  weekday_activity_share := 4/5
  night_activity_share := 1/20

/-- A behavioral event, restricted to the fields the feature extractors
read: `event_type`, the timestamp's hour and day-of-week, `location`,
`port`, `file_path` and `success`. -/
structure BEvent where
  event_type : String
  hour : ℕ
  dayOfWeek : ℕ
  location : Option String
  port : Option ℚ
  file_path : Option String
  success : Bool
  deriving DecidableEq, Repr

/-- The sensitive-path keyword set of `feature_engineering.py`. -/
def sensitiveKeywords : List String :=
  ["secret", "password", "credential", "key", "/etc/", "/root/", "config"]

/-- Case-insensitive keyword match of `file_path` against
`sensitive_keywords` (`str.contains(..., case=False, na=False)`: a missing
path never matches). -/
def isSensitivePath : Option String → Bool
  | none => false
  | some p => sensitiveKeywords.any fun k => pyIn k.toLower p.toLower

/-- Count of distinct values, mirroring pandas `nunique()` after
`dropna()`. -/
def distinctCount {α : Type} [DecidableEq α] (l : List α) : ℕ :=
  (l.foldl (fun acc x => if x ∈ acc then acc else x :: acc) []).length

/-- Mean of a rational list (callers guard against the empty list). -/
def listMean (l : List ℚ) : ℚ := l.sum / l.length

/-- Denominator of the per-day rates in the day-window extractor:
`max(days_back, 1)`. -/
def dayDenom (days_back : ℕ) : ℚ := max (days_back : ℚ) 1

/-- Denominator of the per-week firewall rate in the day-window extractor:
`max(days_back / 7, 1)`. -/
def weekDenom (days_back : ℕ) : ℚ := max ((days_back : ℚ) / 7) 1

/-- Denominator of the per-day rates in the hour-window extractor:
`max(hours_back / 24, 1)`. -/
def hourDayDenom (hours_back : ℕ) : ℚ := max ((hours_back : ℚ) / 24) 1

/-- Denominator of the per-week firewall rate in the hour-window
extractor: `max(hours_back / (24 * 7), 1)`. -/
def hourWeekDenom (hours_back : ℕ) : ℚ := max ((hours_back : ℚ) / (24 * 7)) 1

/-- `calculate_behavioral_fingerprint`.  The database query (`employee`
row and the events of the last `days_back` days) is replaced by its
result: `baseline_location` and the event list.  `stdFn` stands for the
pandas sample standard deviation (irrational in general, so left
abstract; it is only applied when there is more than one login). -/
def calculate_behavioral_fingerprint (stdFn : List ℚ → ℚ)
    (baseline_location : Option String) (days_back : ℕ)
    (events : List BEvent) : Fingerprint :=
  if events.isEmpty then defaultFingerprint
  else
    let login_events := events.filter fun e => e.event_type == "login"
    let login_hours : List ℚ := login_events.map fun e => (e.hour : ℚ)
    let avg_login_hour : ℚ :=
      if login_events.length > 0 then listMean login_hours else 9
    let login_hour_std : ℚ :=
      if login_events.length > 0 then
        (if login_hours.length > 1 then stdFn login_hours else 0)
      else 2
    let locations := events.filterMap fun e => e.location
    let unique_locations_count : ℚ := (distinctCount locations : ℚ)
    let avg_location_distance : ℚ :=
      match baseline_location with
      | some bl =>
          if locations.length > 0 then
            ((locations.countP fun loc => loc ≠ bl : ℕ) : ℚ) / locations.length
          else 0
      | none => 0
    let ports := events.filterMap fun e => e.port
    let unique_ports_count : ℚ :=
      if ports.length > 0 then (distinctCount ports : ℚ) else 0
    let avg_port_number : ℚ := if ports.length > 0 then listMean ports else 0
    let file_events := events.filter fun e => e.event_type == "file_access"
    let file_access_rate : ℚ := file_events.length / dayDenom days_back
    let sensitive_file_access_rate : ℚ :=
      if file_events.length > 0 then
        (file_events.countP fun e => isSensitivePath e.file_path : ℕ) /
          dayDenom days_back
      else 0
    let privilege_escalation_rate : ℚ :=
      (events.countP fun e => e.event_type == "privilege_escalation" : ℕ) /
        dayDenom days_back
    let firewall_change_rate : ℚ :=
      (events.countP fun e => e.event_type == "firewall" : ℕ) /
        weekDenom days_back
    let network_activity_volume : ℚ :=
      (events.countP fun e => e.event_type == "network" : ℕ) /
        dayDenom days_back
    let failed_login_rate : ℚ :=
      (login_events.countP fun e => e.success == false : ℕ) /
        dayDenom days_back
    let total_events := events.length
    let weekday_share : ℚ :=
      if total_events > 0 then
        (events.countP fun e => e.dayOfWeek < 5 : ℕ) / (total_events : ℚ)
      else 7/10
    let night_share : ℚ :=
      if total_events > 0 then
        (events.countP fun e => 22 ≤ e.hour || e.hour < 6 : ℕ) /
          (total_events : ℚ)
      else 0
    { avg_login_hour := avg_login_hour
      login_hour_std := login_hour_std
      unique_locations_count := unique_locations_count
      avg_location_distance := avg_location_distance
      unique_ports_count := unique_ports_count
      avg_port_number := avg_port_number
      file_access_rate := file_access_rate
      sensitive_file_access_rate := sensitive_file_access_rate
      privilege_escalation_rate := privilege_escalation_rate
      firewall_change_rate := firewall_change_rate
      network_activity_volume := network_activity_volume
      failed_login_rate := failed_login_rate
      weekday_activity_share := weekday_share
      night_activity_share := night_share }

/-- `extract_features_from_recent_events`: the hour-window variant.  The
employee row may be absent (`employee and employee.baseline_location`),
hence the doubly optional baseline. -/
def extract_features_from_recent_events (stdFn : List ℚ → ℚ)
    (employee : Option (Option String)) (hours_back : ℕ)
    (events : List BEvent) : Fingerprint :=
  if events.isEmpty then defaultFingerprint
  else
    let login_events := events.filter fun e => e.event_type == "login"
    let login_hours : List ℚ := login_events.map fun e => (e.hour : ℚ)
    let avg_login_hour : ℚ :=
      if login_events.length > 0 then listMean login_hours else 9
    let login_hour_std : ℚ :=
      if login_events.length > 0 then
        (if login_hours.length > 1 then stdFn login_hours else 0)
      else 2
    let locations := events.filterMap fun e => e.location
    let unique_locations_count : ℚ := (distinctCount locations : ℚ)
    let avg_location_distance : ℚ :=
      match employee with
      | some (some bl) =>
          if locations.length > 0 then
            ((locations.countP fun loc => loc ≠ bl : ℕ) : ℚ) / locations.length
          else 0
      | _ => 0
    let ports := events.filterMap fun e => e.port
    let unique_ports_count : ℚ :=
      if ports.length > 0 then (distinctCount ports : ℚ) else 0
    let avg_port_number : ℚ := if ports.length > 0 then listMean ports else 0
    let file_events := events.filter fun e => e.event_type == "file_access"
    let file_access_rate : ℚ := file_events.length / hourDayDenom hours_back
    let sensitive_file_access_rate : ℚ :=
      if file_events.length > 0 then
        (file_events.countP fun e => isSensitivePath e.file_path : ℕ) /
          hourDayDenom hours_back
      else 0
    let privilege_escalation_rate : ℚ :=
      (events.countP fun e => e.event_type == "privilege_escalation" : ℕ) /
        hourDayDenom hours_back
    let firewall_change_rate : ℚ :=
      (events.countP fun e => e.event_type == "firewall" : ℕ) /
        hourWeekDenom hours_back
    let network_activity_volume : ℚ :=
      (events.countP fun e => e.event_type == "network" : ℕ) /
        hourDayDenom hours_back
    let failed_login_rate : ℚ :=
      (login_events.countP fun e => e.success == false : ℕ) /
        hourDayDenom hours_back
    let total_events := events.length
    let weekday_share : ℚ :=
      if total_events > 0 then
        (events.countP fun e => e.dayOfWeek < 5 : ℕ) / (total_events : ℚ)
      else 7/10
    let night_share : ℚ :=
      if total_events > 0 then
        (events.countP fun e => 22 ≤ e.hour || e.hour < 6 : ℕ) /
          (total_events : ℚ)
      else 0
    { avg_login_hour := avg_login_hour
      login_hour_std := login_hour_std
      unique_locations_count := unique_locations_count
      avg_location_distance := avg_location_distance
      unique_ports_count := unique_ports_count
      avg_port_number := avg_port_number
      file_access_rate := file_access_rate
      sensitive_file_access_rate := sensitive_file_access_rate
      privilege_escalation_rate := privilege_escalation_rate
      firewall_change_rate := firewall_change_rate
      network_activity_volume := network_activity_volume
      failed_login_rate := failed_login_rate
      weekday_activity_share := weekday_share
      night_activity_share := night_share }

/-! ## Anomaly detector (`backend/ml/anomaly_detector.py`) -/

/-- `AnomalyDetector._calculate_risk_score`: `int(np.clip((0.5 - s) * 100,
0, 100))`.  `int()` truncates toward zero; the clipped value is
non-negative, so truncation is the floor. -/
def riskScore (anomaly_score : ℚ) : ℕ :=
  (⌊min (max ((1/2 - anomaly_score) * 100) 0) 100⌋).toNat

/-- Modelled from the spec (for comparison with `riskScore`): the claimed
formula `clip(round((0.5 - raw_score) * 100), 0, 100)`. -/
def claimedRiskScore (raw_score : ℚ) : ℕ :=
  (min (max (round ((1/2 - raw_score) * 100)) 0) 100).toNat

/-- `AnomalyDetector._get_risk_level`. -/
def riskLevel (risk_score : ℕ) : String :=
  if risk_score ≥ 80 then "critical"
  else if risk_score ≥ 60 then "high"
  else if risk_score ≥ 40 then "medium"
  else "low"

/-- A loaded model artifact, as a value snapshot: the isolation forest's
outlier label and raw score and the K-Means cluster id, each a fixed
function of the (already scaled) input fingerprint. -/
structure RawModel where
  isAnomalyOf : Fingerprint → Bool
  scoreOf : Fingerprint → ℚ
  clusterOf : Fingerprint → ℕ

structure Prediction where
  is_anomaly : Bool
  anomaly_score : ℚ
  risk_score : ℕ
  risk_level : String
  cluster : ℕ
  deriving DecidableEq, Repr

/-- `AnomalyDetector.predict_single`. -/
def predictSingle (m : RawModel) (features : Fingerprint) : Prediction :=
  { is_anomaly := m.isAnomalyOf features
    anomaly_score := m.scoreOf features
    risk_score := riskScore (m.scoreOf features)
    risk_level := riskLevel (riskScore (m.scoreOf features))
    cluster := m.clusterOf features }

/-! ## Attribution engine (`backend/ml/explainability.py`) -/

/-- The `normal_values` reference table of
`ExplainabilityEngine._fallback_explanation` (same shape as a
fingerprint). -/
def normalValues : Fingerprint where
  avg_login_hour := 9
  login_hour_std := 2
  unique_locations_count := 1
  avg_location_distance := 0
  unique_ports_count := 3
  avg_port_number := 443
  file_access_rate := 5
  sensitive_file_access_rate := 1/10
  privilege_escalation_rate := 1/2
  firewall_change_rate := 0
  network_activity_volume := 10
  failed_login_rate := 0
  weekday_activity_share := 4/5
  night_activity_share := 1/20

/-- One entry of `top_features` (the presentation-only `feature_display`
and `description` strings are not modelled). -/
structure TopFeature where
  feature : String
  value : ℚ
  shap_value : ℚ
  impact : String
  deriving DecidableEq, Repr

structure Explanation where
  shap_values : List (String × ℚ)
  top_features : List TopFeature
  deriving DecidableEq, Repr

/-- One entry of the `deviations` list of `_fallback_explanation`:
`(name, abs(pseudo_shap), value, pseudo_shap)`. -/
structure DevEntry where
  name : String
  dev : ℚ
  value : ℚ
  pseudo : ℚ
  deriving DecidableEq, Repr

/-- The per-feature loop body of `_fallback_explanation`: the normalized
deviation from the `normal_values` reference, signed by whether the value
exceeds the reference. -/
def pseudoShap (value normal : ℚ) : ℚ :=
  (if normal ≠ 0 then |value - normal| / |normal| else |value|) *
    (if value > normal then 1 else -1)

/-- `ExplainabilityEngine._fallback_explanation`. -/
def fallbackExplanation (features : Fingerprint) : Explanation :=
  let pairs := (fingerprintToList features).zip (fingerprintToList normalValues)
  let shap_dict : List (String × ℚ) :=
    pairs.map fun p => (p.1.1, pseudoShap p.1.2 p.2.2)
  let deviations : List DevEntry :=
    pairs.map fun p =>
      { name := p.1.1, dev := |pseudoShap p.1.2 p.2.2|, value := p.1.2,
        pseudo := pseudoShap p.1.2 p.2.2 }
  let sorted := sortB (fun a b => b.dev ≤ a.dev) deviations
  { shap_values := shap_dict
    top_features := (sorted.take 5).map fun (d : DevEntry) =>
      { feature := d.name, value := d.value, shap_value := d.pseudo,
        impact := if d.pseudo > 0 then "increases" else "decreases" } }

/-- `ExplainabilityEngine._get_top_features`: sort the SHAP dict by
absolute value (descending, stable), keep the first five, and attach the
feature's value and the impact direction. -/
def getTopFeatures (shap_values : List (String × ℚ)) (features : Fingerprint) :
    List TopFeature :=
  let sorted := sortB (fun a b => |b.2| ≤ |a.2|) shap_values
  (sorted.take 5).map fun (p : String × ℚ) =>
    { feature := p.1
      value := (((fingerprintToList features).lookup p.1).getD 0)
      shap_value := p.2
      impact := if p.2 > 0 then "increases" else "decreases" }

/-- `ExplainabilityEngine.explain`.  `shapOutcome` is the result of the
shap library call: `none` when the explainer could not be initialized or
`shap_values` raised (both fall back), otherwise the per-feature SHAP
values. -/
def explain (shapOutcome : Option Fingerprint) (features : Fingerprint) :
    Explanation :=
  match shapOutcome with
  | none => fallbackExplanation features
  | some sv =>
      let shap_dict := (fingerprintToList sv).map fun p => (p.1, p.2)
      { shap_values := shap_dict
        top_features := getTopFeatures shap_dict features }

/-! ## MITRE technique mapper (`backend/ml/mitre_mapper.py`) -/

structure TechniqueInfo where
  name : String
  tactic : String
  description : String
  indicators : List String
  deriving DecidableEq, Repr

/-- The static `technique_database` catalog, in dict insertion order. -/
def techniqueDatabase : List (String × TechniqueInfo) :=
  [("T1078",
    { name := "Valid Accounts", tactic := "Initial Access / Persistence",
      description := "Adversaries may obtain and abuse credentials of existing accounts",
      indicators := ["unusual_login", "failed_login", "night_activity", "location_variance"] }),
   ("T1021",
    { name := "Remote Services", tactic := "Lateral Movement",
      description := "Adversaries may use valid accounts to log into a service",
      indicators := ["unusual_port", "network_activity", "unique_ports"] }),
   ("T1068",
    { name := "Exploitation for Privilege Escalation", tactic := "Privilege Escalation",
      description := "Adversaries may exploit software vulnerabilities to elevate privileges",
      indicators := ["privilege_escalation", "unusual_sudo"] }),
   ("T1048",
    { name := "Exfiltration Over Alternative Protocol", tactic := "Exfiltration",
      description := "Adversaries may steal data by exfiltrating it over a different protocol",
      indicators := ["unusual_port", "network_activity", "large_transfer"] }),
   ("T1562",
    { name := "Impair Defenses", tactic := "Defense Evasion",
      description := "Adversaries may maliciously modify components to impair defenses",
      indicators := ["firewall_change", "security_config"] }),
   ("T1530",
    { name := "Data from Cloud Storage", tactic := "Collection",
      description := "Adversaries may access data from cloud storage",
      indicators := ["sensitive_file_access", "unusual_file_access", "bulk_download"] }),
   ("T1110",
    { name := "Brute Force", tactic := "Credential Access",
      description := "Adversaries may use brute force techniques to gain access",
      indicators := ["failed_login", "multiple_login_attempts"] }),
   ("T1098",
    { name := "Account Manipulation", tactic := "Persistence",
      description := "Adversaries may manipulate accounts to maintain access",
      indicators := ["privilege_escalation", "account_modification"] })]

/-- `MitreMapper._calculate_confidence`.  The anomaly-type term is added
once (`break` after the first indicator found in the category string);
the feature term counts the attributed features that match at least one
indicator (substring in either direction); the risk term scales the risk
score; the sum is capped at 1. -/
def calcConfidence (anomaly_type : String) (feature_names : List String)
    (indicators : List String) (risk_score : ℕ) : ℚ :=
  let type_term : ℚ := if indicators.any (fun i => pyIn i anomaly_type) then 2/5 else 0
  let feature_matches : ℕ :=
    feature_names.countP fun f => indicators.any fun i => pyIn i f || pyIn f i
  let feature_term : ℚ :=
    if indicators.length > 0 then
      ((feature_matches : ℚ) / indicators.length) * (2/5)
    else 0
  let risk_term : ℚ := ((risk_score : ℚ) / 100) * (1/5)
  min (type_term + feature_term + risk_term) 1

structure TechniqueMapping where
  technique_id : String
  technique_name : String
  tactic : String
  description : String
  confidence : ℚ
  deriving DecidableEq, Repr

/-- The `mappings` list built by `MitreMapper.map_anomaly` before its
final in-place sort: the catalog entries whose confidence exceeds 0.3, in
catalog order. -/
def mapAnomalyUnsorted (anomaly_type : String) (top_features : List TopFeature)
    (risk_score : ℕ) : List TechniqueMapping :=
  let feature_names := top_features.map fun t => t.feature
  techniqueDatabase.filterMap fun (e : String × TechniqueInfo) =>
    let confidence := calcConfidence anomaly_type feature_names e.2.indicators risk_score
    if confidence > 3/10 then
      some { technique_id := e.1, technique_name := e.2.name,
             tactic := e.2.tactic, description := e.2.description,
             confidence := confidence }
    else none

/-- `MitreMapper.map_anomaly`: keep the catalog entries whose confidence
exceeds 0.3 (in catalog order), then stable-sort by descending
confidence. -/
def mapAnomaly (anomaly_type : String) (top_features : List TopFeature)
    (risk_score : ℕ) : List TechniqueMapping :=
  sortB (fun a b => b.confidence ≤ a.confidence)
    (mapAnomalyUnsorted anomaly_type top_features risk_score)

/-- Modelled from the spec (for comparison with `calcConfidence`): the
claimed feature term counts matched indicators, not matched features:
`0.4 * (matched_indicator_count / total_indicators)`. -/
def claimedCalcConfidence (anomaly_type : String) (feature_names : List String)
    (indicators : List String) (risk_score : ℕ) : ℚ :=
  let type_term : ℚ := if indicators.any (fun i => pyIn i anomaly_type) then 2/5 else 0
  let matched_indicator_count : ℕ :=
    indicators.countP fun i => feature_names.any fun f => pyIn i f || pyIn f i
  let feature_term : ℚ :=
    if indicators.length > 0 then
      ((matched_indicator_count : ℚ) / indicators.length) * (2/5)
    else 0
  let risk_term : ℚ := ((risk_score : ℚ) / 100) * (1/5)
  min (type_term + feature_term + risk_term) 1

/-- Modelled from the spec: `map_techniques` with the claimed confidence
formula. -/
def claimedMapAnomaly (anomaly_type : String) (top_features : List TopFeature)
    (risk_score : ℕ) : List TechniqueMapping :=
  let feature_names := top_features.map fun t => t.feature
  let mappings := techniqueDatabase.filterMap fun (e : String × TechniqueInfo) =>
    let confidence := claimedCalcConfidence anomaly_type feature_names e.2.indicators risk_score
    if confidence > 3/10 then
      some { technique_id := e.1, technique_name := e.2.name,
             tactic := e.2.tactic, description := e.2.description,
             confidence := confidence }
    else none
  sortB (fun a b => b.confidence ≤ a.confidence) mappings

/-- `determine_anomaly_type`: category label from the single
highest-contribution attributed feature. -/
def determineAnomalyType (top_features : List TopFeature) : String :=
  match top_features with
  | [] => "unknown"
  | t :: _ =>
      let type_mapping : List (String × String) :=
        [("avg_login_hour", "unusual_login_time"),
         ("login_hour_std", "unusual_login_pattern"),
         ("unique_locations_count", "unusual_location"),
         ("avg_location_distance", "location_variance"),
         ("unique_ports_count", "unusual_port_usage"),
         ("avg_port_number", "unusual_port"),
         ("file_access_rate", "unusual_file_access"),
         ("sensitive_file_access_rate", "sensitive_file_access"),
         ("privilege_escalation_rate", "privilege_escalation"),
         ("firewall_change_rate", "firewall_change"),
         ("network_activity_volume", "network_activity"),
         ("failed_login_rate", "failed_login"),
         ("weekday_activity_ratio", "unusual_schedule"),
         ("night_activity_ratio", "night_activity")]
      (type_mapping.lookup t.feature).getD "behavioral_anomaly"

/-! ## Mitigation engine (`backend/ml/mitigation_engine.py`) -/

structure Strategy where
  priority : ℕ
  category : String
  action : String
  description : String
  deriving DecidableEq, Repr

/-- The static `mitigation_templates` table, in dict insertion order. -/
def mitigationTemplates : List (String × List Strategy) :=
  [("unusual_login_time",
    [{ priority := 1, category := "immediate", action := "Verify employee activity",
       description := "Contact employee to confirm the login was legitimate" },
     { priority := 2, category := "immediate", action := "Review access logs",
       description := "Check all activities performed during the unusual login session" },
     { priority := 3, category := "short_term", action := "Enable MFA alerts",
       description := "Configure alerts for logins outside normal hours" }]),
   ("location_variance",
    [{ priority := 1, category := "immediate", action := "Verify location",
       description := "Confirm employee is traveling or working from new location" },
     { priority := 2, category := "immediate", action := "Check for VPN usage",
       description := "Verify if location change is due to VPN or proxy" },
     { priority := 3, category := "short_term", action := "Implement geo-fencing",
       description := "Set up alerts for logins from unexpected geographic locations" }]),
   ("unusual_port",
    [{ priority := 1, category := "immediate", action := "Block suspicious port",
       description := "Temporarily block the unusual port pending investigation" },
     { priority := 2, category := "immediate", action := "Analyze network traffic",
       description := "Review all traffic on the unusual port for malicious activity" },
     { priority := 3, category := "short_term", action := "Update firewall rules",
       description := "Restrict port access to authorized users only" }]),
   ("sensitive_file_access",
    [{ priority := 1, category := "immediate", action := "Review file access",
       description := "Audit which sensitive files were accessed and why" },
     { priority := 1, category := "immediate", action := "Check for data exfiltration",
       description := "Monitor for unusual data transfers or downloads" },
     { priority := 2, category := "short_term", action := "Restrict file permissions",
       description := "Review and tighten access controls on sensitive files" },
     { priority := 3, category := "long_term", action := "Implement DLP",
       description := "Deploy Data Loss Prevention tools to monitor sensitive data" }]),
   ("privilege_escalation",
    [{ priority := 1, category := "immediate", action := "Suspend elevated privileges",
       description := "Temporarily revoke sudo/admin access pending investigation" },
     { priority := 1, category := "immediate", action := "Review privilege usage",
       description := "Audit all commands executed with elevated privileges" },
     { priority := 2, category := "short_term", action := "Implement privilege monitoring",
       description := "Set up real-time alerts for privilege escalation attempts" },
     { priority := 3, category := "long_term", action := "Apply least privilege principle",
       description := "Review and minimize privilege assignments across organization" }]),
   ("firewall_change",
    [{ priority := 1, category := "immediate", action := "Revert firewall changes",
       description := "Roll back unauthorized firewall rule modifications" },
     { priority := 1, category := "immediate", action := "Investigate change reason",
       description := "Determine why firewall rules were modified" },
     { priority := 2, category := "short_term", action := "Restrict firewall access",
       description := "Limit firewall configuration access to security team only" },
     { priority := 3, category := "long_term", action := "Implement change management",
       description := "Require approval workflow for all firewall changes" }]),
   ("failed_login",
    [{ priority := 1, category := "immediate", action := "Lock account temporarily",
       description := "Prevent further login attempts to protect account" },
     { priority := 2, category := "immediate", action := "Contact employee",
       description := "Verify if employee is having login issues or if account is compromised" },
     { priority := 2, category := "short_term", action := "Force password reset",
       description := "Require employee to reset password with strong requirements" },
     { priority := 3, category := "short_term", action := "Enable account monitoring",
       description := "Set up enhanced monitoring for this account" }]),
   ("network_activity",
    [{ priority := 1, category := "immediate", action := "Analyze traffic patterns",
       description := "Review network logs for signs of data exfiltration" },
     { priority := 2, category := "immediate", action := "Check for malware",
       description := "Scan employee workstation for malware or backdoors" },
     { priority := 3, category := "short_term", action := "Implement bandwidth limits",
       description := "Set reasonable bandwidth limits for user accounts" }]),
   ("night_activity",
    [{ priority := 1, category := "immediate", action := "Verify employee activity",
       description := "Confirm if employee was working late or if account is compromised" },
     { priority := 2, category := "short_term", action := "Review activities performed",
       description := "Audit all actions taken during off-hours" },
     { priority := 3, category := "short_term", action := "Set up off-hours alerts",
       description := "Configure notifications for activity outside business hours" }]),
   ("high_cpu_usage",
    [{ priority := 1, category := "immediate", action := "Investigate running processes",
       description := "Identify processes consuming high CPU (potential crypto miner)" },
     { priority := 2, category := "immediate", action := "Scan for malware",
       description := "Run deep system scan for resource hijacking malware" },
     { priority := 3, category := "short_term", action := "Kill suspicious process",
       description := "Terminate any unauthorized high-resource processes" }]),
   ("high_memory_usage",
    [{ priority := 1, category := "immediate", action := "Check for memory leaks/bloat",
       description := "Identify applications using excessive memory" },
     { priority := 2, category := "immediate", action := "Scan for memory-resident malware",
       description := "Check for malware injecting into legitimate processes" }])]

/-- `default_mitigations`: the 3-step generic plan for unknown anomaly
types. -/
def defaultMitigations : List Strategy :=
  [{ priority := 1, category := "immediate", action := "Investigate anomaly",
     description := "Review the detected anomaly and gather more context" },
   { priority := 2, category := "immediate", action := "Contact employee",
     description := "Verify the unusual behavior with the employee" },
   { priority := 3, category := "short_term", action := "Monitor account",
     description := "Enable enhanced monitoring for this employee account" }]

/-- The urgent action prepended for `risk_level == 'critical'`. -/
def escalateAction : Strategy :=
  { priority := 1, category := "immediate", action := "Escalate to security team",
    description := "CRITICAL: Immediately notify security operations center" }

/-- The action prepended for `risk_level == 'high'`. -/
def alertAction : Strategy :=
  { priority := 1, category := "immediate", action := "Alert security team",
    description := "HIGH RISK: Notify security team for immediate review" }

/-- The static `mitre_mitigations` lookup of
`MitigationEngine._get_mitre_mitigation`. -/
def mitreMitigations : List (String × Strategy) :=
  [("T1078", { priority := 2, category := "short_term", action := "Implement MFA",
               description := "Enable multi-factor authentication to prevent credential abuse" }),
   ("T1021", { priority := 2, category := "short_term", action := "Restrict remote access",
               description := "Limit remote service access to authorized users and IPs" }),
   ("T1068", { priority := 1, category := "immediate", action := "Patch vulnerabilities",
               description := "Apply security patches to prevent privilege escalation exploits" }),
   ("T1048", { priority := 1, category := "immediate", action := "Monitor data transfers",
               description := "Implement network monitoring to detect data exfiltration" }),
   ("T1562", { priority := 1, category := "immediate", action := "Restore security controls",
               description := "Re-enable any disabled security mechanisms" }),
   ("T1530", { priority := 2, category := "short_term", action := "Audit cloud access",
               description := "Review and restrict cloud storage access permissions" }),
   ("T1496", { priority := 1, category := "immediate", action := "Isolate and Clean",
               description := "Disconnect from network and remove crypto-mining malware" })]

/-- `MitigationEngine._get_mitre_mitigation`. -/
def getMitreMitigation (technique : TechniqueMapping) : Option Strategy :=
  mitreMitigations.lookup technique.technique_id

/-- The core of `MitigationEngine.generate_strategies`, over explicitly
passed template tables (the engine state). -/
def generateStrategiesCore (templates : List (String × List Strategy))
    (defaults : List Strategy) (anomaly_type risk_level : String)
    (mitre_techniques : List TechniqueMapping) : List Strategy :=
  let base := (templates.lookup anomaly_type).getD defaults
  -- `strategies = [s.copy() for s in strategies]`: a fresh list of fresh
  -- records, so the inserts and appends below never touch `templates`.
  let copied := base.map fun s => { s with }
  let strategies :=
    if risk_level = "critical" then escalateAction :: copied
    else if risk_level = "high" then alertAction :: copied
    else copied
  let withMitre :=
    strategies ++ (mitre_techniques.take 2).filterMap getMitreMitigation
  sortB (fun a b => a.priority ≤ b.priority) withMitre

/-- `MitigationEngine.generate_strategies` on the engine's static
tables. -/
def generate_strategies (anomaly_type risk_level : String)
    (mitre_techniques : List TechniqueMapping) : List Strategy :=
  generateStrategiesCore mitigationTemplates defaultMitigations
    anomaly_type risk_level mitre_techniques

/-- The mutable state of a `MitigationEngine` instance: the two template
tables assigned in `__init__`. -/
structure EngineState where
  templates : List (String × List Strategy)
  defaults : List Strategy
  deriving DecidableEq

/-- `generate_strategies` as a state transformer on the engine instance,
to express that a call leaves the template tables untouched. -/
def generateStrategiesSt (st : EngineState) (anomaly_type risk_level : String)
    (mitre_techniques : List TechniqueMapping) :
    List Strategy × EngineState :=
  (generateStrategiesCore st.templates st.defaults anomaly_type risk_level
    mitre_techniques, st)

/-! ## Event ingestion pipeline (`backend/routes/events.py`)

`create_event` persists the submitted event and then runs
`process_event_anomaly`, whose whole body is wrapped in
`try ... except: pass`-style error isolation.  The durable stores are
modelled as the list of writes performed; the sklearn model and the shap
library are oracles (`MlEnv`). -/

/-- The fields of a submitted event that `process_event_anomaly` reads. -/
structure PEvent where
  event_type : String
  deriving DecidableEq, Repr

/-- An anomaly row as created by the pipeline (`models.Anomaly`); `status`
is the column default `"open"` unless given.  The formatted `description`
text is not modelled; `top_features` is represented by the feature names
it carries. -/
structure AnomalyRecord where
  employee_id : String
  anomaly_score : ℚ
  risk_level : String
  risk_score : ℕ
  anomaly_type : String
  shap_values : List (String × ℚ)
  top_feature_names : List String
  status : String := "open"
  deriving DecidableEq, Repr

/-- A mitigation row: the statistical path stores a `Strategy`
(priority/category/action), the policy-violation path stores the
hard-coded name/action-type/status record. -/
inductive MitigationWrite : Type
  | strategyRow (s : Strategy)
  | policyRow (strategy_name action_type status : String)
  deriving DecidableEq, Repr

/-- One durable write performed by event ingestion. -/
inductive DbWrite : Type
  | eventRow (e : PEvent)
  | anomalyRow (a : AnomalyRecord)
  | mitreRow (m : TechniqueMapping)
  | mitigationRow (g : MitigationWrite)
  deriving DecidableEq, Repr

/-- The external ML state `process_event_anomaly` runs against: the
loaded model artifact (`none`: not trained and `load_model()` failed, so
the pipeline returns without writing) and the shap outcome fed to
`explain`. -/
structure MlEnv where
  model : Option RawModel
  shapOutcome : Fingerprint → Option Fingerprint

/-- The fixed anomaly row synthesized for a `policy_violation` event. -/
def policyAnomaly (employee_id : String) : AnomalyRecord :=
  { employee_id := employee_id, anomaly_score := -1,
    risk_level := "critical", risk_score := 100,
    anomaly_type := "policy_violation", shap_values := [],
    top_feature_names := ["policy_violation"] }

/-- The fixed technique mapping synthesized for a `policy_violation`
event. -/
def policyMitre : TechniqueMapping :=
  { technique_id := "T1204.002",
    technique_name := "User Execution: Malicious File",
    tactic := "Execution",
    description := "User attempted to execute a blocked file extension (.bat/.cmd/.vbs)",
    confidence := 1 }

/-- The fixed mitigation row synthesized for a `policy_violation`
event. -/
def policyMitigation : MitigationWrite :=
  .policyRow "Isolate and Educate" "automated_blocking" "active"

/-- The body of `process_event_anomaly` (the second, active definition in
`events.py`, with the rule-based `policy_violation` bypass): the list of
writes it performs.  `recent` stands for the events fetched for the last
24 hours, `employee` for the employee row consulted by the extractor. -/
def processEventAnomaly (env : MlEnv) (stdFn : List ℚ → ℚ)
    (employee_id : String) (ev : PEvent)
    (employee : Option (Option String)) (recent : List BEvent) :
    List DbWrite :=
  if ev.event_type = "policy_violation" then
    [.anomalyRow (policyAnomaly employee_id),
     .mitreRow policyMitre,
     .mitigationRow policyMitigation]
  else
    match env.model with
    | none => []
    | some m =>
        let features := extract_features_from_recent_events stdFn employee 24 recent
        let prediction := predictSingle m features
        if prediction.is_anomaly then
          let explanation := explain (env.shapOutcome features) features
          let anomaly_type := determineAnomalyType explanation.top_features
          let mitre_mappings :=
            mapAnomaly anomaly_type explanation.top_features prediction.risk_score
          let strategies :=
            generate_strategies anomaly_type prediction.risk_level mitre_mappings
          .anomalyRow
            { employee_id := employee_id,
              anomaly_score := prediction.anomaly_score,
              risk_level := prediction.risk_level,
              risk_score := prediction.risk_score,
              anomaly_type := anomaly_type,
              shap_values := explanation.shap_values,
              top_feature_names := explanation.top_features.map fun t => t.feature }
            :: mitre_mappings.map .mitreRow
            ++ strategies.map fun s => .mitigationRow (.strategyRow s)
        else []

/-- One execution of the fallible body of `process_event_anomaly` as
observed from outside: the writes it durably performed before returning
or raising, and the exception it raised, if any.  The `except` clause of
`process_event_anomaly` swallows the exception, keeping the writes. -/
structure PipelineRun where
  writes : List DbWrite
  raised : Option String
  deriving DecidableEq, Repr

/-- `create_event`: look up the employee (`404` if absent, nothing
written), durably record the event, then run the anomaly pipeline with
its error isolation.  Returns the HTTP outcome together with everything
durably written. -/
def createEvent (employee : Option String) (ev : PEvent)
    (pipeline : PipelineRun) : Except String (List DbWrite) :=
  match employee with
  | none => .error "404: Employee not found"
  | some _ => .ok (.eventRow ev :: pipeline.writes)

/-! ## Helper lemmas and discriminators -/

def isMitreRow : DbWrite → Bool
  | .mitreRow _ => true
  | _ => false

def isMitigationRow : DbWrite → Bool
  | .mitigationRow _ => true
  | _ => false

theorem lookup_mem {β : Type} {l : List (String × β)} {k : String} {v : β}
    (h : l.lookup k = some v) : (k, v) ∈ l := by
  induction l with
  | nil => simp [List.lookup] at h
  | cons a t ih =>
    rw [List.lookup] at h
    by_cases hk : k == a.1
    · rw [hk] at h
      obtain ⟨k1, v1⟩ := a
      simp only [Option.some.injEq] at h
      subst h
      simp only [beq_iff_eq] at hk
      subst hk
      exact List.mem_cons_self _ _
    · rw [Bool.not_eq_true] at hk
      rw [hk] at h
      exact List.mem_cons_of_mem _ (ih h)

/-! ## Claim theorems -/

/-- C3 counterexample: the claimed `risk_score = clip(round((0.5 - s) *
100), 0, 100)` disagrees with the code at raw score `s = 0.003`, where
`(0.5 - s) * 100 = 49.7`: the code's `int()` truncation gives 49 while
rounding gives 50. -/
theorem c3_risk_score_counterexample :
    riskScore (3/1000) = 49 ∧ claimedRiskScore (3/1000) = 50 ∧ (49 : ℕ) ≠ 50 := by
  have hv : ((1:ℚ)/2 - 3/1000) * 100 = 497/10 := by norm_num
  refine ⟨?_, ?_, by decide⟩
  · rw [riskScore, hv, max_eq_left (by norm_num : (0:ℚ) ≤ 497/10),
      min_eq_left (by norm_num : (497/10 : ℚ) ≤ 100)]
    have hf : (⌊(497/10 : ℚ)⌋ : ℤ) = 49 := by norm_num
    rw [hf]
    rfl
  · rw [claimedRiskScore, hv]
    have hr : round ((497:ℚ)/10) = 50 := by norm_num [round_eq]
    rw [hr]
    rfl

/-- C3 (amended): the risk score is `clip` followed by truncation toward
zero (the floor, as the clipped value is non-negative), not rounding; it
never exceeds 100, is monotonically non-increasing in the raw score, and
the risk level thresholds are as claimed (`<40` low, `<60` medium, `<80`
high, `≥80` critical). -/
theorem c3_risk_score_floor (s t : ℚ) (r : ℕ) :
    riskScore s = (⌊min (max ((1/2 - s) * 100) 0) 100⌋).toNat
    ∧ riskScore s ≤ 100
    ∧ (s ≤ t → riskScore t ≤ riskScore s)
    ∧ (riskLevel r = "low" ↔ r < 40)
    ∧ (riskLevel r = "medium" ↔ 40 ≤ r ∧ r < 60)
    ∧ (riskLevel r = "high" ↔ 60 ≤ r ∧ r < 80)
    ∧ (riskLevel r = "critical" ↔ 80 ≤ r) := by
  have e1 : ∀ x : ℕ, 80 ≤ x → riskLevel x = "critical" := by
    intro x hx
    unfold riskLevel
    rw [if_pos (by omega : x ≥ 80)]
  have e2 : ∀ x : ℕ, 60 ≤ x → x < 80 → riskLevel x = "high" := by
    intro x h1 h2
    unfold riskLevel
    rw [if_neg (by omega : ¬ x ≥ 80), if_pos (by omega : x ≥ 60)]
  have e3 : ∀ x : ℕ, 40 ≤ x → x < 60 → riskLevel x = "medium" := by
    intro x h1 h2
    unfold riskLevel
    rw [if_neg (by omega : ¬ x ≥ 80), if_neg (by omega : ¬ x ≥ 60),
      if_pos (by omega : x ≥ 40)]
  have e4 : ∀ x : ℕ, x < 40 → riskLevel x = "low" := by
    intro x h1
    unfold riskLevel
    rw [if_neg (by omega : ¬ x ≥ 80), if_neg (by omega : ¬ x ≥ 60),
      if_neg (by omega : ¬ x ≥ 40)]
  have cases4 : ∀ x : ℕ,
      80 ≤ x ∨ (60 ≤ x ∧ x < 80) ∨ (40 ≤ x ∧ x < 60) ∨ x < 40 := by omega
  refine ⟨rfl, ?_, ?_, ?_, ?_, ?_, ?_⟩
  · have h1 : (⌊min (max ((1/2 - s) * 100) 0) 100⌋ : ℤ) ≤ 100 := by
      have hm : (min (max ((1/2 - s) * 100) 0) 100 : ℚ) ≤ 100 := min_le_right _ _
      calc (⌊min (max ((1/2 - s) * 100) 0) 100⌋ : ℤ)
          ≤ ⌊(100 : ℚ)⌋ := Int.floor_le_floor hm
        _ = 100 := by norm_num
    exact Int.toNat_le.mpr h1
  · intro hst
    apply Int.toNat_le_toNat
    apply Int.floor_le_floor
    have hm : (1/2 - t) * 100 ≤ (1/2 - s) * 100 := by nlinarith
    exact min_le_min (max_le_max hm le_rfl) le_rfl
  · constructor
    · intro h
      rcases cases4 r with h80 | ⟨h60, h80⟩ | ⟨h40, h60⟩ | h40
      · exact absurd ((e1 r h80).symm.trans h) (by decide)
      · exact absurd ((e2 r h60 h80).symm.trans h) (by decide)
      · exact absurd ((e3 r h40 h60).symm.trans h) (by decide)
      · exact h40
    · exact e4 r
  · constructor
    · intro h
      rcases cases4 r with h80 | ⟨h60, h80⟩ | ⟨h40, h60⟩ | h40
      · exact absurd ((e1 r h80).symm.trans h) (by decide)
      · exact absurd ((e2 r h60 h80).symm.trans h) (by decide)
      · exact ⟨h40, h60⟩
      · exact absurd ((e4 r h40).symm.trans h) (by decide)
    · exact fun hr => e3 r hr.1 hr.2
  · constructor
    · intro h
      rcases cases4 r with h80 | ⟨h60, h80⟩ | ⟨h40, h60⟩ | h40
      · exact absurd ((e1 r h80).symm.trans h) (by decide)
      · exact ⟨h60, h80⟩
      · exact absurd ((e3 r h40 h60).symm.trans h) (by decide)
      · exact absurd ((e4 r h40).symm.trans h) (by decide)
    · exact fun hr => e2 r hr.1 hr.2
  · constructor
    · intro h
      rcases cases4 r with h80 | ⟨h60, h80⟩ | ⟨h40, h60⟩ | h40
      · exact h80
      · exact absurd ((e2 r h60 h80).symm.trans h) (by decide)
      · exact absurd ((e3 r h40 h60).symm.trans h) (by decide)
      · exact absurd ((e4 r h40).symm.trans h) (by decide)
    · exact e1 r

/-- Witness for C3: the monotonicity hypothesis discharged at `s = 0`,
`t = 1`. -/
theorem c3_risk_score_floor_witness : riskScore 1 ≤ riskScore 0 :=
  (c3_risk_score_floor 0 1 0).2.2.1 (by norm_num)

/-- C9: with zero events in the window, both extractors return exactly
the default fingerprint constant (whose fourteen values are as claimed),
and every rate denominator is at least 1, so no ratio is computed against
a zero denominator. -/
theorem c9_zero_events_default (stdFn : List ℚ → ℚ) (bl : Option String)
    (employee : Option (Option String)) (d h : ℕ) :
    calculate_behavioral_fingerprint stdFn bl d [] = defaultFingerprint
    ∧ extract_features_from_recent_events stdFn employee h [] = defaultFingerprint
    ∧ defaultFingerprint =
        { avg_login_hour := 9, login_hour_std := 2,
          unique_locations_count := 1, avg_location_distance := 0,
          unique_ports_count := 3, avg_port_number := 443,
          file_access_rate := 5, sensitive_file_access_rate := 1/10,
          privilege_escalation_rate := 1/2, firewall_change_rate := 0,
          network_activity_volume := 10, failed_login_rate := 0,
          weekday_activity_share := 4/5, night_activity_share := 1/20 }
    ∧ 1 ≤ dayDenom d ∧ 1 ≤ weekDenom d
    ∧ 1 ≤ hourDayDenom h ∧ 1 ≤ hourWeekDenom h :=
  ⟨rfl, rfl, rfl, le_max_right _ _, le_max_right _ _, le_max_right _ _,
    le_max_right _ _⟩

/-- C6: when the employee exists, the submitted event is durably recorded
before the anomaly pipeline runs, and ingestion returns success whatever
the pipeline body did — in particular when it raised an exception, whose
writes-so-far are kept and whose error is swallowed. -/
theorem c6_pipeline_error_isolation (emp : String) (ev : PEvent)
    (ws : List DbWrite) (exn : String) :
    createEvent (some emp) ev ⟨ws, some exn⟩ = .ok (.eventRow ev :: ws)
    ∧ ∀ run : PipelineRun, ∃ out, createEvent (some emp) ev run = .ok out
        ∧ DbWrite.eventRow ev ∈ out :=
  ⟨rfl, fun _ => ⟨_, rfl, List.mem_cons_self _ _⟩⟩

/-- C2: a `policy_violation` event takes the rule-based bypass: the
pipeline writes exactly one critical/100 anomaly with status `open`, one
technique mapping and one mitigation action, and the result is
independent of the model and shap oracles (the model is never
consulted). -/
theorem c2_policy_violation_bypass (env : MlEnv) (stdFn : List ℚ → ℚ)
    (eid : String) (ev : PEvent) (employee : Option (Option String))
    (recent : List BEvent) (hp : ev.event_type = "policy_violation") :
    processEventAnomaly env stdFn eid ev employee recent =
      [.anomalyRow (policyAnomaly eid), .mitreRow policyMitre,
       .mitigationRow policyMitigation]
    ∧ (policyAnomaly eid).risk_level = "critical"
    ∧ (policyAnomaly eid).risk_score = 100
    ∧ (policyAnomaly eid).status = "open"
    ∧ (processEventAnomaly env stdFn eid ev employee recent).countP isMitreRow = 1
    ∧ (processEventAnomaly env stdFn eid ev employee recent).countP isMitigationRow = 1
    ∧ ∀ (env₂ : MlEnv) (stdFn₂ : List ℚ → ℚ),
        processEventAnomaly env stdFn eid ev employee recent
          = processEventAnomaly env₂ stdFn₂ eid ev employee recent := by
  have hbranch : ∀ (e : MlEnv) (sf : List ℚ → ℚ),
      processEventAnomaly e sf eid ev employee recent =
        [.anomalyRow (policyAnomaly eid), .mitreRow policyMitre,
         .mitigationRow policyMitigation] := by
    intro e sf
    simp [processEventAnomaly, hp]
  refine ⟨hbranch env stdFn, rfl, rfl, rfl, ?_, ?_,
    fun e2 s2 => (hbranch env stdFn).trans (hbranch e2 s2).symm⟩
  · rw [hbranch]; rfl
  · rw [hbranch]; rfl

/-- Witness for C2 at a concrete policy-violation event. -/
theorem c2_policy_violation_bypass_witness :
    processEventAnomaly ⟨none, fun _ => none⟩ (fun _ => 0) "emp1"
        ⟨"policy_violation"⟩ none [] =
      [.anomalyRow (policyAnomaly "emp1"), .mitreRow policyMitre,
       .mitigationRow policyMitigation] :=
  (c2_policy_violation_bypass ⟨none, fun _ => none⟩ (fun _ => 0) "emp1"
    ⟨"policy_violation"⟩ none [] rfl).1

/-- C10: per-call operations are deterministic and stateless: a
`generate_strategies` call returns the engine's template tables
unchanged (the code operates on per-call copies), a second call with the
same inputs returns the same output, and scoring, explanation, technique
mapping and planning are pure functions of their inputs and the loaded
artifact. -/
theorem c10_deterministic_stateless (st : EngineState) (t rl : String)
    (techs : List TechniqueMapping) (m : RawModel) (f : Fingerprint)
    (sOut : Option Fingerprint) (rs : ℕ) (tfs : List TopFeature) :
    (generateStrategiesSt st t rl techs).2 = st
    ∧ (generateStrategiesSt st t rl techs).1
        = (generateStrategiesSt (generateStrategiesSt st t rl techs).2 t rl techs).1
    ∧ predictSingle m f = predictSingle m f
    ∧ explain sOut f = explain sOut f
    ∧ mapAnomaly t tfs rs = mapAnomaly t tfs rs
    ∧ generate_strategies t rl techs = generate_strategies t rl techs :=
  ⟨rfl, rfl, rfl, rfl, rfl, rfl⟩

/-- The C1 scenario input: `avg_login_hour = 3.0`, every other feature at
its expected-normal reference value. -/
def scenarioFingerprint : Fingerprint := { normalValues with avg_login_hour := 3 }

/-- Modelled from the spec (for comparison with `pseudoShap`): deviation
`|value - expected_normal| / |expected_normal|` (or `|value|` when the
reference is 0), signed by whether the observed value exceeds the
reference. -/
def claimedPseudoShap (value normal : ℚ) : ℚ :=
  (if normal ≠ 0 then |value - normal| / |normal| else |value|) *
    (if value > normal then 1 else -1)

/-- C1 counterexample: on the claimed scenario the top attributed feature
in fallback mode is indeed `avg_login_hour`, but its pseudo-contribution
is `-(2/3)` — negative (risk-decreasing), not positive as claimed:
`3.0 < 9.0`, and the code signs by `value > normal`. -/
theorem c1_fallback_sign_counterexample :
    (explain none scenarioFingerprint).top_features.head? =
      some { feature := "avg_login_hour", value := 3, shap_value := -(2/3),
             impact := "decreases" }
    ∧ ¬ ((-(2/3) : ℚ) > 0) := by
  constructor
  · norm_num [explain, fallbackExplanation, scenarioFingerprint,
      fingerprintToList, normalValues, pseudoShap, sortB, insertB]
  · norm_num

/-- C1 (amended): each fallback pseudo-contribution equals the claimed
signed deviation from the expected-normal reference of that feature
(`|v - n| / |n|`, or `|v|` when `n = 0`, signed by `v > n`); on the
scenario fingerprint the top attributed feature is `avg_login_hour`, with
*negative* (risk-decreasing) contribution `-(2/3)`. -/
theorem c1_fallback_attribution (f : Fingerprint) :
    (fallbackExplanation f).shap_values =
      (fingerprintToList f).map (fun p =>
        (p.1, claimedPseudoShap p.2
          (((fingerprintToList normalValues).lookup p.1).getD 0)))
    ∧ (explain none scenarioFingerprint).top_features.head? =
        some { feature := "avg_login_hour", value := 3, shap_value := -(2/3),
               impact := "decreases" }
    ∧ ((-(2/3) : ℚ) < 0) := by
  refine ⟨?_, ?_, by norm_num⟩
  · cases f
    rfl
  · norm_num [explain, fallbackExplanation, scenarioFingerprint,
      fingerprintToList, normalValues, pseudoShap, sortB, insertB]

/-- A stable sort by a descending rational key is sorted. -/
theorem pairwise_sortB_descQ {α : Type} (key : α → ℚ) (l : List α) :
    (sortB (fun a b => decide (key b ≤ key a)) l).Pairwise
      (fun a b => key b ≤ key a) := by
  have h := @pairwise_sortB α (fun a b => decide (key b ≤ key a))
    (fun a b c hab hbc => by
      simp only [decide_eq_true_eq] at *
      exact le_trans hbc hab)
    (fun a b => by
      rcases le_total (key b) (key a) with h | h
      · left; simpa using h
      · right; simpa using h) l
  exact h.imp (fun hx => by simpa using hx)

/-- Every entry of the `deviations` list of `_fallback_explanation`
stores the absolute value of its own pseudo-SHAP value in its sort
key. -/
theorem dev_eq_abs_pseudo_of_mem {l : List ((String × ℚ) × (String × ℚ))}
    {d : DevEntry}
    (hd : d ∈ l.map (fun p =>
       ({ name := p.1.1, dev := |pseudoShap p.1.2 p.2.2|, value := p.1.2,
          pseudo := pseudoShap p.1.2 p.2.2 } : DevEntry))) :
    d.dev = |d.pseudo| := by
  obtain ⟨p, _, rfl⟩ := List.mem_map.mp hd
  rfl

/-- C5: in both the SHAP mode and the fallback mode, `explain` returns a
non-empty `top_features` list of length at most 5, sorted by descending
absolute contribution; when all fallback deviations are zero (input equal
to the reference table) the ties keep feature declaration order, giving
the first five declared feature names. -/
theorem c5_top_features_invariant (shapOutcome : Option Fingerprint)
    (f : Fingerprint) :
    (explain shapOutcome f).top_features ≠ []
    ∧ (explain shapOutcome f).top_features.length ≤ 5
    ∧ (explain shapOutcome f).top_features.Pairwise
        (fun a b => |b.shap_value| ≤ |a.shap_value|)
    ∧ (explain none normalValues).top_features.map (fun t => t.feature)
        = featureNames.take 5 := by
  have htie : (explain none normalValues).top_features.map (fun t => t.feature)
      = featureNames.take 5 := by
    norm_num [explain, fallbackExplanation, fingerprintToList, normalValues,
      pseudoShap, sortB, insertB, featureNames]
  cases shapOutcome with
  | none =>
    simp only [explain, fallbackExplanation]
    refine ⟨?_, ?_, ?_, htie⟩
    · intro hnil
      have := congrArg List.length hnil
      simp only [List.length_map, List.length_take, length_sortB,
        List.length_zip, List.length_nil] at this
      cases f
      simp [fingerprintToList] at this
    · simp only [List.length_map, List.length_take]
      omega
    · rw [List.pairwise_map]
      have hsorted := pairwise_sortB_descQ (fun d : DevEntry => d.dev)
        (((fingerprintToList f).zip (fingerprintToList normalValues)).map
          (fun p => { name := p.1.1, dev := |pseudoShap p.1.2 p.2.2|,
                      value := p.1.2, pseudo := pseudoShap p.1.2 p.2.2 }))
      have htake := hsorted.sublist (List.take_sublist 5 _)
      refine htake.imp_of_mem ?_
      intro a b ha hb hab
      have hda : a.dev = |a.pseudo| :=
        dev_eq_abs_pseudo_of_mem (mem_sortB.mp (List.take_subset _ _ ha))
      have hdb : b.dev = |b.pseudo| :=
        dev_eq_abs_pseudo_of_mem (mem_sortB.mp (List.take_subset _ _ hb))
      show |b.pseudo| ≤ |a.pseudo|
      rw [← hda, ← hdb]
      exact hab
  | some sv =>
    simp only [explain, getTopFeatures]
    refine ⟨?_, ?_, ?_, htie⟩
    · intro hnil
      have := congrArg List.length hnil
      simp only [List.length_map, List.length_take, length_sortB,
        List.length_nil] at this
      cases sv
      simp [fingerprintToList] at this
    · simp only [List.length_map, List.length_take]
      omega
    · rw [List.pairwise_map]
      have hsorted := pairwise_sortB_descQ (fun p : String × ℚ => |p.2|)
        ((fingerprintToList sv).map (fun p => (p.1, p.2)))
      have htake := hsorted.sublist (List.take_sublist 5 _)
      exact htake.imp (fun h => h)

/-- A synthetic attributed feature carrying only a name (the other fields
are irrelevant to `map_anomaly`). -/
def tfNamed (n : String) : TopFeature :=
  { feature := n, value := 0, shap_value := 0, impact := "increases" }

/-- C7 counterexample: with category `""`, attributed features `"p"` and
`"r"`, and risk score 0, the code's confidence counts matched *features*
(each feature matched once against any indicator), not matched
*indicators* as claimed.  For T1068 (`privilege_escalation`,
`unusual_sudo`) both features match the single indicator
`privilege_escalation`, so the code returns confidence `2/5 > 0.3` while
the claimed formula gives `1/5 ≤ 0.3`; the returned technique sets
differ (`T1068`/`T1098` in code vs `T1021`/`T1048`/`T1562` under the
claimed formula). -/
theorem c7_confidence_counterexample :
    calcConfidence "" ["p", "r"] ["privilege_escalation", "unusual_sudo"] 0 = 2/5
    ∧ claimedCalcConfidence "" ["p", "r"]
        ["privilege_escalation", "unusual_sudo"] 0 = 1/5
    ∧ ((2:ℚ)/5 ≠ 1/5)
    ∧ (mapAnomaly "" [tfNamed "p", tfNamed "r"] 0).map
        (fun m => (m.technique_id, m.confidence))
      = [("T1068", 2/5), ("T1098", 2/5)]
    ∧ (claimedMapAnomaly "" [tfNamed "p", tfNamed "r"] 0).map
        (fun m => (m.technique_id, m.confidence))
      = [("T1021", 2/5), ("T1048", 2/5), ("T1562", 2/5)]
    ∧ ([("T1068", (2:ℚ)/5), ("T1098", (2:ℚ)/5)]
        ≠ [("T1021", (2:ℚ)/5), ("T1048", (2:ℚ)/5), ("T1562", (2:ℚ)/5)]) := by
  have hany78 : (["unusual_login", "failed_login", "night_activity",
      "location_variance"] : List String).any (fun i => pyIn i "") = false := by decide
  have hany21 : (["unusual_port", "network_activity", "unique_ports"] :
      List String).any (fun i => pyIn i "") = false := by decide
  have hany68 : (["privilege_escalation", "unusual_sudo"] :
      List String).any (fun i => pyIn i "") = false := by decide
  have hany48 : (["unusual_port", "network_activity", "large_transfer"] :
      List String).any (fun i => pyIn i "") = false := by decide
  have hany62 : (["firewall_change", "security_config"] :
      List String).any (fun i => pyIn i "") = false := by decide
  have hany30 : (["sensitive_file_access", "unusual_file_access",
      "bulk_download"] : List String).any (fun i => pyIn i "") = false := by decide
  have hany10 : (["failed_login", "multiple_login_attempts"] :
      List String).any (fun i => pyIn i "") = false := by decide
  have hany98 : (["privilege_escalation", "account_modification"] :
      List String).any (fun i => pyIn i "") = false := by decide
  have h78 : calcConfidence "" ["p", "r"] ["unusual_login", "failed_login",
      "night_activity", "location_variance"] 0 = 1/10 := by
    have hc : List.countP (fun f => (["unusual_login", "failed_login",
        "night_activity", "location_variance"] : List String).any
        (fun i => pyIn i f || pyIn f i)) ["p", "r"] = 1 := by decide
    rw [calcConfidence, hc, hany78]
    norm_num
  have h21 : calcConfidence "" ["p", "r"] ["unusual_port",
      "network_activity", "unique_ports"] 0 = 4/15 := by
    have hc : List.countP (fun f => (["unusual_port", "network_activity",
        "unique_ports"] : List String).any
        (fun i => pyIn i f || pyIn f i)) ["p", "r"] = 2 := by decide
    rw [calcConfidence, hc, hany21]
    norm_num
  have h68 : calcConfidence "" ["p", "r"] ["privilege_escalation",
      "unusual_sudo"] 0 = 2/5 := by
    have hc : List.countP (fun f => (["privilege_escalation",
        "unusual_sudo"] : List String).any
        (fun i => pyIn i f || pyIn f i)) ["p", "r"] = 2 := by decide
    rw [calcConfidence, hc, hany68]
    norm_num
  have h48 : calcConfidence "" ["p", "r"] ["unusual_port",
      "network_activity", "large_transfer"] 0 = 4/15 := by
    have hc : List.countP (fun f => (["unusual_port", "network_activity",
        "large_transfer"] : List String).any
        (fun i => pyIn i f || pyIn f i)) ["p", "r"] = 2 := by decide
    rw [calcConfidence, hc, hany48]
    norm_num
  have h62 : calcConfidence "" ["p", "r"] ["firewall_change",
      "security_config"] 0 = 1/5 := by
    have hc : List.countP (fun f => (["firewall_change",
        "security_config"] : List String).any
        (fun i => pyIn i f || pyIn f i)) ["p", "r"] = 1 := by decide
    rw [calcConfidence, hc, hany62]
    norm_num
  have h30 : calcConfidence "" ["p", "r"] ["sensitive_file_access",
      "unusual_file_access", "bulk_download"] 0 = 0 := by
    have hc : List.countP (fun f => (["sensitive_file_access",
        "unusual_file_access", "bulk_download"] : List String).any
        (fun i => pyIn i f || pyIn f i)) ["p", "r"] = 0 := by decide
    rw [calcConfidence, hc, hany30]
    norm_num
  have h10 : calcConfidence "" ["p", "r"] ["failed_login",
      "multiple_login_attempts"] 0 = 1/5 := by
    have hc : List.countP (fun f => (["failed_login",
        "multiple_login_attempts"] : List String).any
        (fun i => pyIn i f || pyIn f i)) ["p", "r"] = 1 := by decide
    rw [calcConfidence, hc, hany10]
    norm_num
  have h98 : calcConfidence "" ["p", "r"] ["privilege_escalation",
      "account_modification"] 0 = 2/5 := by
    have hc : List.countP (fun f => (["privilege_escalation",
        "account_modification"] : List String).any
        (fun i => pyIn i f || pyIn f i)) ["p", "r"] = 2 := by decide
    rw [calcConfidence, hc, hany98]
    norm_num
  have g78 : claimedCalcConfidence "" ["p", "r"] ["unusual_login",
      "failed_login", "night_activity", "location_variance"] 0 = 1/10 := by
    have hc : List.countP (fun i => (["p", "r"] : List String).any
        (fun f => pyIn i f || pyIn f i)) ["unusual_login", "failed_login",
        "night_activity", "location_variance"] = 1 := by decide
    rw [claimedCalcConfidence, hc, hany78]
    norm_num
  have g21 : claimedCalcConfidence "" ["p", "r"] ["unusual_port",
      "network_activity", "unique_ports"] 0 = 2/5 := by
    have hc : List.countP (fun i => (["p", "r"] : List String).any
        (fun f => pyIn i f || pyIn f i)) ["unusual_port",
        "network_activity", "unique_ports"] = 3 := by decide
    rw [claimedCalcConfidence, hc, hany21]
    norm_num
  have g68 : claimedCalcConfidence "" ["p", "r"] ["privilege_escalation",
      "unusual_sudo"] 0 = 1/5 := by
    have hc : List.countP (fun i => (["p", "r"] : List String).any
        (fun f => pyIn i f || pyIn f i)) ["privilege_escalation",
        "unusual_sudo"] = 1 := by decide
    rw [claimedCalcConfidence, hc, hany68]
    norm_num
  have g48 : claimedCalcConfidence "" ["p", "r"] ["unusual_port",
      "network_activity", "large_transfer"] 0 = 2/5 := by
    have hc : List.countP (fun i => (["p", "r"] : List String).any
        (fun f => pyIn i f || pyIn f i)) ["unusual_port",
        "network_activity", "large_transfer"] = 3 := by decide
    rw [claimedCalcConfidence, hc, hany48]
    norm_num
  have g62 : claimedCalcConfidence "" ["p", "r"] ["firewall_change",
      "security_config"] 0 = 2/5 := by
    have hc : List.countP (fun i => (["p", "r"] : List String).any
        (fun f => pyIn i f || pyIn f i)) ["firewall_change",
        "security_config"] = 2 := by decide
    rw [claimedCalcConfidence, hc, hany62]
    norm_num
  have g30 : claimedCalcConfidence "" ["p", "r"] ["sensitive_file_access",
      "unusual_file_access", "bulk_download"] 0 = 0 := by
    have hc : List.countP (fun i => (["p", "r"] : List String).any
        (fun f => pyIn i f || pyIn f i)) ["sensitive_file_access",
        "unusual_file_access", "bulk_download"] = 0 := by decide
    rw [claimedCalcConfidence, hc, hany30]
    norm_num
  have g10 : claimedCalcConfidence "" ["p", "r"] ["failed_login",
      "multiple_login_attempts"] 0 = 1/5 := by
    have hc : List.countP (fun i => (["p", "r"] : List String).any
        (fun f => pyIn i f || pyIn f i)) ["failed_login",
        "multiple_login_attempts"] = 1 := by decide
    rw [claimedCalcConfidence, hc, hany10]
    norm_num
  have g98 : claimedCalcConfidence "" ["p", "r"] ["privilege_escalation",
      "account_modification"] 0 = 1/5 := by
    have hc : List.countP (fun i => (["p", "r"] : List String).any
        (fun f => pyIn i f || pyIn f i)) ["privilege_escalation",
        "account_modification"] = 1 := by decide
    rw [claimedCalcConfidence, hc, hany98]
    norm_num
  refine ⟨h68, g68, by norm_num, ?_, ?_, by simp⟩
  · norm_num [mapAnomaly, mapAnomalyUnsorted, techniqueDatabase, tfNamed,
      List.filterMap_cons, sortB, insertB, h78, h21, h68, h48, h62, h30,
      h10, h98]
  · norm_num [claimedMapAnomaly, techniqueDatabase, tfNamed,
      List.filterMap_cons, sortB, insertB, g78, g21, g68, g48, g62, g30,
      g10, g98]

/-- C7 (amended): `map_anomaly` returns only entries with confidence
strictly above 0.3, sorted descending by confidence with ties keeping
catalog order (the sort is stable over the catalog-ordered filtered
list); the confidence is 0.4 for a category hit (counted once), plus
0.4 scaled by the number of *matched attributed features* (each feature
counted once if it matches any indicator, substring in either direction)
over the total indicator count — not by the number of matched indicators
as claimed — plus 0.2 scaled by the risk score, capped at 1. -/
theorem c7_map_techniques (t : String) (tfs : List TopFeature) (rs : ℕ) :
    (mapAnomaly t tfs rs).all (fun m => 3/10 < m.confidence) = true
    ∧ (mapAnomaly t tfs rs).Pairwise (fun a b => b.confidence ≤ a.confidence)
    ∧ (∀ c : ℚ, (mapAnomaly t tfs rs).filter (fun m => m.confidence == c)
        = (mapAnomalyUnsorted t tfs rs).filter (fun m => m.confidence == c))
    ∧ (∀ (fns inds : List String) (n : ℕ),
        calcConfidence t fns inds n =
          min ((if inds.any (fun i => pyIn i t) then 2/5 else 0)
            + (if inds.length > 0 then
                ((fns.countP fun f => inds.any fun i => pyIn i f || pyIn f i : ℕ) : ℚ)
                  / inds.length * (2/5)
              else 0)
            + ((n : ℚ) / 100) * (1/5)) 1) := by
  refine ⟨?_, ?_, ?_, fun fns inds n => rfl⟩
  · rw [List.all_eq_true]
    intro m hm
    have hm2 : m ∈ mapAnomalyUnsorted t tfs rs := mem_sortB.mp hm
    rw [mapAnomalyUnsorted] at hm2
    obtain ⟨e, he, hfe⟩ := List.mem_filterMap.mp hm2
    dsimp only at hfe
    by_cases hc : calcConfidence t (tfs.map fun x => x.feature) e.2.indicators rs > 3/10
    · rw [if_pos hc] at hfe
      obtain rfl := Option.some.inj hfe
      simpa using hc
    · rw [if_neg hc] at hfe
      exact absurd hfe (by simp)
  · rw [mapAnomaly]
    exact pairwise_sortB_descQ (fun m : TechniqueMapping => m.confidence) _
  · intro c
    rw [mapAnomaly]
    refine filter_sortB ?_ _
    intro x y hx hy
    simp only [beq_iff_eq] at hx hy
    simp [hx, hy]

/-- A stable sort by an ascending natural key is sorted. -/
theorem pairwise_sortB_ascNat {α : Type} (key : α → ℕ) (l : List α) :
    (sortB (fun a b => decide (key a ≤ key b)) l).Pairwise
      (fun a b => key a ≤ key b) := by
  have h := @pairwise_sortB α (fun a b => decide (key a ≤ key b))
    (fun a b c hab hbc => by
      simp only [decide_eq_true_eq] at *
      exact le_trans hab hbc)
    (fun a b => by
      rcases le_total (key a) (key b) with h | h
      · left; simpa using h
      · right; simpa using h) l
  exact h.imp (fun hx => by simpa using hx)

/-- Every strategy in the static mitigation tables has priority at least
1 and is distinct from the prepended escalation and alert actions. -/
theorem mitigation_template_facts :
    (∀ kv ∈ mitigationTemplates, ∀ s ∈ kv.2,
        1 ≤ s.priority ∧ s ≠ escalateAction ∧ s ≠ alertAction)
    ∧ (∀ s ∈ defaultMitigations,
        1 ≤ s.priority ∧ s ≠ escalateAction ∧ s ≠ alertAction)
    ∧ (∀ kv ∈ mitreMitigations,
        1 ≤ kv.2.priority ∧ kv.2 ≠ escalateAction ∧ kv.2 ≠ alertAction) := by
  decide

/-- The base strategy list fetched for any anomaly type satisfies the
table facts. -/
theorem base_strategy_facts (t : String) (s : Strategy)
    (hs : s ∈ (mitigationTemplates.lookup t).getD defaultMitigations) :
    1 ≤ s.priority ∧ s ≠ escalateAction ∧ s ≠ alertAction := by
  cases hl : mitigationTemplates.lookup t with
  | none =>
      rw [hl, Option.getD_none] at hs
      exact mitigation_template_facts.2.1 s hs
  | some v =>
      rw [hl, Option.getD_some] at hs
      exact mitigation_template_facts.1 (t, v) (lookup_mem hl) s hs

/-- Technique-specific strategies appended from `mitre_mitigations`
satisfy the table facts. -/
theorem extra_strategy_facts (techs : List TechniqueMapping) (s : Strategy)
    (hs : s ∈ (techs.take 2).filterMap getMitreMitigation) :
    1 ≤ s.priority ∧ s ≠ escalateAction ∧ s ≠ alertAction := by
  obtain ⟨m, _, hms⟩ := List.mem_filterMap.mp hs
  rw [getMitreMitigation] at hms
  exact mitigation_template_facts.2.2 (m.technique_id, s) (lookup_mem hms)

/-- C8: `generate_strategies` output is sorted ascending by priority; for
`risk_level = 'critical'` the first action is the escalation action and
the alert action never appears, for `risk_level = 'high'` the priority-1
security-team alert action is first and the escalation action never
appears — never both. -/
theorem c8_plan_mitigations (t rl : String) (techs : List TechniqueMapping) :
    (generate_strategies t rl techs).Pairwise (fun a b => a.priority ≤ b.priority)
    ∧ (rl = "critical" →
        (generate_strategies t rl techs).head? = some escalateAction
        ∧ alertAction ∉ generate_strategies t rl techs)
    ∧ (rl = "high" →
        (generate_strategies t rl techs).head? = some alertAction
        ∧ escalateAction ∉ generate_strategies t rl techs) := by
  have hbase : ∀ s ∈ ((mitigationTemplates.lookup t).getD defaultMitigations).map
      (fun s => { s with }), 1 ≤ s.priority ∧ s ≠ escalateAction ∧ s ≠ alertAction := by
    intro s hs
    obtain ⟨u, hu, rfl⟩ := List.mem_map.mp hs
    exact base_strategy_facts t u hu
  have hextra := extra_strategy_facts techs
  refine ⟨?_, ?_, ?_⟩
  · rw [generate_strategies, generateStrategiesCore]
    exact pairwise_sortB_ascNat (fun s : Strategy => s.priority) _
  · intro hrl
    subst hrl
    have hexp : generate_strategies t "critical" techs
        = sortB (fun a b => decide (a.priority ≤ b.priority))
            (escalateAction ::
              (((mitigationTemplates.lookup t).getD defaultMitigations).map
                  (fun s => { s with })
                ++ (techs.take 2).filterMap getMitreMitigation)) := by
      simp only [generate_strategies, generateStrategiesCore, List.cons_append,
        if_pos]
    have hmin : ∀ x ∈ ((mitigationTemplates.lookup t).getD defaultMitigations).map
        (fun s => { s with }) ++ (techs.take 2).filterMap getMitreMitigation,
        (fun a b : Strategy => decide (a.priority ≤ b.priority)) escalateAction x
          = true := by
      intro x hx
      rcases List.mem_append.mp hx with hx | hx
      · exact decide_eq_true (hbase x hx).1
      · exact decide_eq_true (hextra x hx).1
    rw [hexp, sortB_cons_of_min hmin]
    refine ⟨rfl, ?_⟩
    intro hmem
    rcases List.mem_cons.mp hmem with h | h
    · exact absurd h (by decide)
    · have hm := mem_sortB.mp h
      rcases List.mem_append.mp hm with hx | hx
      · exact (hbase _ hx).2.2 rfl
      · exact (hextra _ hx).2.2 rfl
  · intro hrl
    subst hrl
    have hexp : generate_strategies t "high" techs
        = sortB (fun a b => decide (a.priority ≤ b.priority))
            (alertAction ::
              (((mitigationTemplates.lookup t).getD defaultMitigations).map
                  (fun s => { s with })
                ++ (techs.take 2).filterMap getMitreMitigation)) := by
      simp only [generate_strategies, generateStrategiesCore, List.cons_append,
        if_true]
      rw [if_neg (by decide : ¬ ("high" : String) = "critical"),
        List.cons_append]
    have hmin : ∀ x ∈ ((mitigationTemplates.lookup t).getD defaultMitigations).map
        (fun s => { s with }) ++ (techs.take 2).filterMap getMitreMitigation,
        (fun a b : Strategy => decide (a.priority ≤ b.priority)) alertAction x
          = true := by
      intro x hx
      rcases List.mem_append.mp hx with hx | hx
      · exact decide_eq_true (hbase x hx).1
      · exact decide_eq_true (hextra x hx).1
    rw [hexp, sortB_cons_of_min hmin]
    refine ⟨rfl, ?_⟩
    intro hmem
    rcases List.mem_cons.mp hmem with h | h
    · exact absurd h (by decide)
    · have hm := mem_sortB.mp h
      rcases List.mem_append.mp hm with hx | hx
      · exact (hbase _ hx).2.1 rfl
      · exact (hextra _ hx).2.1 rfl


/-- Witness for C8: the critical branch at a concrete anomaly type. -/
theorem c8_plan_mitigations_witness :
    (generate_strategies "unusual_port" "critical" []).head? = some escalateAction :=
  ((c8_plan_mitigations "unusual_port" "critical" []).2.1 rfl).1

/-- The six rate features of the day-window extractor equal the matching
event counts divided by the requested window in days (weeks for the
firewall rate), with the denominator floored at 1. -/
theorem day_rates (stdFn : List ℚ → ℚ) (bl : Option String) (d : ℕ)
    (events : List BEvent) (hne : events ≠ []) :
    (calculate_behavioral_fingerprint stdFn bl d events).file_access_rate
      = ((events.countP fun e => e.event_type == "file_access" : ℕ) : ℚ)
          / max (d : ℚ) 1
    ∧ (calculate_behavioral_fingerprint stdFn bl d events).sensitive_file_access_rate
      = ((events.countP fun e =>
            e.event_type == "file_access" && isSensitivePath e.file_path : ℕ) : ℚ)
          / max (d : ℚ) 1
    ∧ (calculate_behavioral_fingerprint stdFn bl d events).privilege_escalation_rate
      = ((events.countP fun e => e.event_type == "privilege_escalation" : ℕ) : ℚ)
          / max (d : ℚ) 1
    ∧ (calculate_behavioral_fingerprint stdFn bl d events).firewall_change_rate
      = ((events.countP fun e => e.event_type == "firewall" : ℕ) : ℚ)
          / max ((d : ℚ) / 7) 1
    ∧ (calculate_behavioral_fingerprint stdFn bl d events).network_activity_volume
      = ((events.countP fun e => e.event_type == "network" : ℕ) : ℚ)
          / max (d : ℚ) 1
    ∧ (calculate_behavioral_fingerprint stdFn bl d events).failed_login_rate
      = ((events.countP fun e =>
            e.event_type == "login" && e.success == false : ℕ) : ℚ)
          / max (d : ℚ) 1 := by
  have hie : ¬ (events.isEmpty = true) := by
    simp [List.isEmpty_iff, hne]
  rw [calculate_behavioral_fingerprint, if_neg hie]
  refine ⟨?_, ?_, ?_, ?_, ?_, ?_⟩
  · dsimp only
    rw [List.countP_eq_length_filter, dayDenom]
  · dsimp only
    by_cases hfe : (events.filter fun e => e.event_type == "file_access") = []
    · rw [if_neg (by simp [hfe])]
      have hz : (events.filter fun e =>
          e.event_type == "file_access" && isSensitivePath e.file_path) = [] := by
        rw [List.eq_nil_iff_forall_not_mem] at hfe ⊢
        intro e he
        have hm := List.mem_filter.mp he
        refine hfe e (List.mem_filter.mpr ⟨hm.1, ?_⟩)
        have h2 := hm.2
        simp only [Bool.and_eq_true] at h2
        exact h2.1
      rw [List.countP_eq_length_filter, hz]
      simp
    · rw [if_pos (by simpa [List.length_pos] using hfe), dayDenom]
      congr 1
      rw [List.countP_eq_length_filter, List.countP_eq_length_filter,
        List.filter_filter]
      norm_cast
      exact congrArg List.length (List.filter_congr
        (fun e _ => Bool.and_comm _ _))
  · dsimp only
    rw [List.countP_eq_length_filter, dayDenom]
  · dsimp only
    rw [List.countP_eq_length_filter, weekDenom]
  · dsimp only
    rw [List.countP_eq_length_filter, dayDenom]
  · dsimp only
    rw [dayDenom]
    congr 1
    rw [List.countP_eq_length_filter, List.countP_eq_length_filter,
      List.filter_filter]
    norm_cast
    exact congrArg List.length (List.filter_congr
      (fun e _ => Bool.and_comm _ _))

/-- The six rate features of the hour-window extractor equal the matching
event counts divided by the requested window expressed in days (weeks for
the firewall rate), with the denominator floored at 1. -/
theorem hour_rates (stdFn : List ℚ → ℚ) (employee : Option (Option String))
    (h : ℕ) (events : List BEvent) (hne : events ≠ []) :
    (extract_features_from_recent_events stdFn employee h events).file_access_rate
      = ((events.countP fun e => e.event_type == "file_access" : ℕ) : ℚ)
          / max ((h : ℚ) / 24) 1
    ∧ (extract_features_from_recent_events stdFn employee h events).sensitive_file_access_rate
      = ((events.countP fun e =>
            e.event_type == "file_access" && isSensitivePath e.file_path : ℕ) : ℚ)
          / max ((h : ℚ) / 24) 1
    ∧ (extract_features_from_recent_events stdFn employee h events).privilege_escalation_rate
      = ((events.countP fun e => e.event_type == "privilege_escalation" : ℕ) : ℚ)
          / max ((h : ℚ) / 24) 1
    ∧ (extract_features_from_recent_events stdFn employee h events).firewall_change_rate
      = ((events.countP fun e => e.event_type == "firewall" : ℕ) : ℚ)
          / max ((h : ℚ) / (24 * 7)) 1
    ∧ (extract_features_from_recent_events stdFn employee h events).network_activity_volume
      = ((events.countP fun e => e.event_type == "network" : ℕ) : ℚ)
          / max ((h : ℚ) / 24) 1
    ∧ (extract_features_from_recent_events stdFn employee h events).failed_login_rate
      = ((events.countP fun e =>
            e.event_type == "login" && e.success == false : ℕ) : ℚ)
          / max ((h : ℚ) / 24) 1 := by
  have hie : ¬ (events.isEmpty = true) := by
    simp [List.isEmpty_iff, hne]
  rw [extract_features_from_recent_events, if_neg hie]
  refine ⟨?_, ?_, ?_, ?_, ?_, ?_⟩
  · dsimp only
    rw [List.countP_eq_length_filter, hourDayDenom]
  · dsimp only
    by_cases hfe : (events.filter fun e => e.event_type == "file_access") = []
    · rw [if_neg (by simp [hfe])]
      have hz : (events.filter fun e =>
          e.event_type == "file_access" && isSensitivePath e.file_path) = [] := by
        rw [List.eq_nil_iff_forall_not_mem] at hfe ⊢
        intro e he
        have hm := List.mem_filter.mp he
        refine hfe e (List.mem_filter.mpr ⟨hm.1, ?_⟩)
        have h2 := hm.2
        simp only [Bool.and_eq_true] at h2
        exact h2.1
      rw [List.countP_eq_length_filter, hz]
      simp
    · rw [if_pos (by simpa [List.length_pos] using hfe), hourDayDenom]
      congr 1
      rw [List.countP_eq_length_filter, List.countP_eq_length_filter,
        List.filter_filter]
      norm_cast
      exact congrArg List.length (List.filter_congr
        (fun e _ => Bool.and_comm _ _))
  · dsimp only
    rw [List.countP_eq_length_filter, hourDayDenom]
  · dsimp only
    rw [List.countP_eq_length_filter, hourWeekDenom]
  · dsimp only
    rw [List.countP_eq_length_filter, hourDayDenom]
  · dsimp only
    rw [hourDayDenom]
    congr 1
    rw [List.countP_eq_length_filter, List.countP_eq_length_filter,
      List.filter_filter]
    norm_cast
    exact congrArg List.length (List.filter_congr
      (fun e _ => Bool.and_comm _ _))

/-- A single firewall-change event (its timestamp fields are irrelevant
to the rate features). -/
def fwEvent : BEvent :=
  { event_type := "firewall", hour := 12, dayOfWeek := 2, location := none,
    port := none, file_path := none, success := true }

/-- The six rate features of a fingerprint, in declaration order. -/
def rateFeatures (f : Fingerprint) : List ℚ :=
  [f.file_access_rate, f.sensitive_file_access_rate,
   f.privilege_escalation_rate, f.firewall_change_rate,
   f.network_activity_volume, f.failed_login_rate]

/-- C4 counterexample: in the hour-window extractor with the default
24-hour window and one firewall event, the code computes
`firewall_change_rate = 1 / max(24/168, 1) = 1`, while dividing the count
by the requested window length in weeks (`24/168` weeks) would give 7.
The per-week denominator is floored at one week, so the rate is not the
count divided by the requested window length. -/
theorem c4_rate_normalization_counterexample :
    (extract_features_from_recent_events (fun _ => 0) none 24
        [fwEvent]).firewall_change_rate = 1
    ∧ (1 : ℚ) / ((24 : ℚ) / (24 * 7)) = 7
    ∧ ((1 : ℚ) ≠ 7) := by
  refine ⟨?_, by norm_num, by norm_num⟩
  have h := (hour_rates (fun _ => 0) none 24 [fwEvent] (by simp)).2.2.2.1
  have hc : List.countP (fun e => e.event_type == "firewall") [fwEvent] = 1 := by
    decide
  have hm : (((24 : ℕ) : ℚ)) / (24 * 7) ⊔ 1 = 1 := max_eq_right (by norm_num)
  rw [h, hc, hm]
  norm_num

/-- C4 (amended): every rate feature equals the matching event count
divided by `max(requested window length in the feature's unit, 1)` — the
requested window in days (weeks for the firewall rate), floored at one
unit — in both extractors; and the rates never depend on the events'
times: retiming every event (any rewrite preserving `event_type`,
`success` and `file_path`) leaves all six rate features unchanged, so in
particular they are never normalized by elapsed time since the first
event. -/
theorem c4_rate_window_normalization (stdFn : List ℚ → ℚ)
    (bl : Option String) (employee : Option (Option String)) (d h : ℕ)
    (events : List BEvent) (hne : events ≠ []) (g : BEvent → BEvent)
    (hg : ∀ e, (g e).event_type = e.event_type ∧ (g e).success = e.success
      ∧ (g e).file_path = e.file_path) :
    ((calculate_behavioral_fingerprint stdFn bl d events).file_access_rate
      = ((events.countP fun e => e.event_type == "file_access" : ℕ) : ℚ)
          / max (d : ℚ) 1
    ∧ (calculate_behavioral_fingerprint stdFn bl d events).sensitive_file_access_rate
      = ((events.countP fun e =>
            e.event_type == "file_access" && isSensitivePath e.file_path : ℕ) : ℚ)
          / max (d : ℚ) 1
    ∧ (calculate_behavioral_fingerprint stdFn bl d events).privilege_escalation_rate
      = ((events.countP fun e => e.event_type == "privilege_escalation" : ℕ) : ℚ)
          / max (d : ℚ) 1
    ∧ (calculate_behavioral_fingerprint stdFn bl d events).firewall_change_rate
      = ((events.countP fun e => e.event_type == "firewall" : ℕ) : ℚ)
          / max ((d : ℚ) / 7) 1
    ∧ (calculate_behavioral_fingerprint stdFn bl d events).network_activity_volume
      = ((events.countP fun e => e.event_type == "network" : ℕ) : ℚ)
          / max (d : ℚ) 1
    ∧ (calculate_behavioral_fingerprint stdFn bl d events).failed_login_rate
      = ((events.countP fun e =>
            e.event_type == "login" && e.success == false : ℕ) : ℚ)
          / max (d : ℚ) 1)
    ∧ ((extract_features_from_recent_events stdFn employee h events).file_access_rate
      = ((events.countP fun e => e.event_type == "file_access" : ℕ) : ℚ)
          / max ((h : ℚ) / 24) 1
    ∧ (extract_features_from_recent_events stdFn employee h events).sensitive_file_access_rate
      = ((events.countP fun e =>
            e.event_type == "file_access" && isSensitivePath e.file_path : ℕ) : ℚ)
          / max ((h : ℚ) / 24) 1
    ∧ (extract_features_from_recent_events stdFn employee h events).privilege_escalation_rate
      = ((events.countP fun e => e.event_type == "privilege_escalation" : ℕ) : ℚ)
          / max ((h : ℚ) / 24) 1
    ∧ (extract_features_from_recent_events stdFn employee h events).firewall_change_rate
      = ((events.countP fun e => e.event_type == "firewall" : ℕ) : ℚ)
          / max ((h : ℚ) / (24 * 7)) 1
    ∧ (extract_features_from_recent_events stdFn employee h events).network_activity_volume
      = ((events.countP fun e => e.event_type == "network" : ℕ) : ℚ)
          / max ((h : ℚ) / 24) 1
    ∧ (extract_features_from_recent_events stdFn employee h events).failed_login_rate
      = ((events.countP fun e =>
            e.event_type == "login" && e.success == false : ℕ) : ℚ)
          / max ((h : ℚ) / 24) 1)
    ∧ rateFeatures (calculate_behavioral_fingerprint stdFn bl d (events.map g))
        = rateFeatures (calculate_behavioral_fingerprint stdFn bl d events)
    ∧ rateFeatures (extract_features_from_recent_events stdFn employee h (events.map g))
        = rateFeatures (extract_features_from_recent_events stdFn employee h events) := by
  have hmne : events.map g ≠ [] := by
    simpa using hne
  have hcount : ∀ p : BEvent → Bool, (∀ e, p (g e) = p e) →
      List.countP p (events.map g) = List.countP p events := by
    intro p hp
    rw [List.countP_map]
    exact List.countP_congr (fun e _ => by simp [Function.comp, hp e])
  have hp1 : ∀ e : BEvent, ((g e).event_type == "file_access")
      = (e.event_type == "file_access") := fun e => by rw [(hg e).1]
  have hp2 : ∀ e : BEvent, ((g e).event_type == "file_access"
        && isSensitivePath (g e).file_path)
      = (e.event_type == "file_access" && isSensitivePath e.file_path) :=
    fun e => by rw [(hg e).1, (hg e).2.2]
  have hp3 : ∀ e : BEvent, ((g e).event_type == "privilege_escalation")
      = (e.event_type == "privilege_escalation") := fun e => by rw [(hg e).1]
  have hp4 : ∀ e : BEvent, ((g e).event_type == "firewall")
      = (e.event_type == "firewall") := fun e => by rw [(hg e).1]
  have hp5 : ∀ e : BEvent, ((g e).event_type == "network")
      = (e.event_type == "network") := fun e => by rw [(hg e).1]
  have hp6 : ∀ e : BEvent, ((g e).event_type == "login"
        && ((g e).success == false))
      = (e.event_type == "login" && (e.success == false)) :=
    fun e => by rw [(hg e).1, (hg e).2.1]
  refine ⟨day_rates stdFn bl d events hne,
    hour_rates stdFn employee h events hne, ?_, ?_⟩
  · have h1 := day_rates stdFn bl d (events.map g) hmne
    have h2 := day_rates stdFn bl d events hne
    rw [rateFeatures, rateFeatures, h1.1, h1.2.1, h1.2.2.1, h1.2.2.2.1,
      h1.2.2.2.2.1, h1.2.2.2.2.2, h2.1, h2.2.1, h2.2.2.1, h2.2.2.2.1,
      h2.2.2.2.2.1, h2.2.2.2.2.2, hcount _ hp1, hcount _ hp2, hcount _ hp3,
      hcount _ hp4, hcount _ hp5, hcount _ hp6]
  · have h1 := hour_rates stdFn employee h (events.map g) hmne
    have h2 := hour_rates stdFn employee h events hne
    rw [rateFeatures, rateFeatures, h1.1, h1.2.1, h1.2.2.1, h1.2.2.2.1,
      h1.2.2.2.2.1, h1.2.2.2.2.2, h2.1, h2.2.1, h2.2.2.1, h2.2.2.2.1,
      h2.2.2.2.2.1, h2.2.2.2.2.2, hcount _ hp1, hcount _ hp2, hcount _ hp3,
      hcount _ hp4, hcount _ hp5, hcount _ hp6]

/-- Witness for C4: the amended equations applied to a concrete
48-hour-window extraction with one firewall event. -/
theorem c4_rate_window_witness :
    (extract_features_from_recent_events (fun _ => 0) none 48
        [fwEvent]).firewall_change_rate = 1 := by
  have h := (c4_rate_window_normalization (fun _ => 0) none none 3 48
    [fwEvent] (by simp) id (fun e => ⟨rfl, rfl, rfl⟩)).2.1.2.2.2.1
  have hc : List.countP (fun e => e.event_type == "firewall") [fwEvent] = 1 := by
    decide
  have hm : (((48 : ℕ) : ℚ)) / (24 * 7) ⊔ 1 = 1 := max_eq_right (by norm_num)
  rw [h, hc, hm]
  norm_num
